import Mathlib

/-!
Shallow embedding of the forecast-interpreter core of `news_weather.py`
(function `describe_tomorrow`, helper `mm_to_inches`, table `WEATHERCODE`),
together with theorems settling the specification claims about it.

Python values flowing through the interpreter are modelled by the JSON-like
type `JVal`; Python `float`/`int` are modelled by exact rationals (the claims
only exercise decimal values at which IEEE-754 double arithmetic agrees with
exact rational arithmetic, e.g. `5.08/25.4 == 0.2` and `1.27/25.4 == 0.05`
hold exactly in doubles as well).  A Python function that can raise an
uncaught exception is modelled as returning `Option`: `none` is an escaped
exception.
-/

/-- JSON-like Python value: `None`, `bool`, `int`, `float` (exact rational),
`str`, `list`, `dict` (string keys, insertion order, no duplicates in values
produced by JSON parsing; lookup takes the first match). -/
inductive JVal where
  | null
  | bool (b : Bool)
  | int (n : ℤ)
  | float (q : ℚ)
  | str (s : String)
  | arr (xs : List JVal)
  | obj (fields : List (String × JVal))

/-- Python `d[k]` for a string key `k`: succeeds only on a dict that has the
key; on anything else (`KeyError` / `TypeError`) the exception is modelled as
`none`. -/
def jget : JVal → String → Option JVal
  | .obj fields, k => fields.lookup k
  | _, _ => none

/-- Python `d.get(k, default)`: never raises on a dict; raises
(`AttributeError`) on non-dicts. -/
def jgetD : JVal → String → JVal → Option JVal
  | .obj fields, k, d => some ((fields.lookup k).getD d)
  | _, _, _ => none

/-- Python `x[i]` for a nonnegative index `i`: element of a list, one-character
string of a string; anything else raises (`IndexError` on overrun, `KeyError`
on dicts, `TypeError` otherwise), modelled as `none`. -/
def jindex : JVal → Nat → Option JVal
  | .arr xs, i => xs.get? i
  | .str s, i => (s.data.get? i).map (fun c => JVal.str (String.singleton c))
  | _, _ => none

/-- Numeric view of a Python value: `bool` is an `int` subclass in Python
(`True == 1`, `False == 0`); everything non-numeric has no numeric view
(arithmetic on it raises `TypeError`). -/
def asNum : JVal → Option ℚ
  | .bool b => some (if b then 1 else 0)
  | .int n => some (n : ℚ)
  | .float q => some q
  | _ => none

/-- The `WEATHERCODE` dict of `news_weather.py`, verbatim: integer keys to
descriptive phrases. -/
def WEATHERCODE : List (ℤ × String) :=
  [(0, "Clear sky"),
   (1, "Mainly clear"),
   (2, "Partly cloudy"),
   (3, "Overcast"),
   (45, "Fog"),
   (48, "Depositing rime fog"),
   (51, "Light drizzle"),
   (53, "Moderate drizzle"),
   (55, "Dense drizzle"),
   (56, "Light freezing drizzle"),
   (57, "Dense freezing drizzle"),
   (61, "Slight rain"),
   (63, "Moderate rain"),
   (65, "Heavy rain"),
   (66, "Light freezing rain"),
   (67, "Heavy freezing rain"),
   (71, "Slight snow"),
   (73, "Moderate snow"),
   (75, "Heavy snow"),
   (77, "Snow grains"),
   (80, "Slight rain showers"),
   (81, "Moderate rain showers"),
   (82, "Violent rain showers"),
   (85, "Slight snow showers"),
   (86, "Heavy snow showers"),
   (95, "Thunderstorm"),
   (96, "Thunderstorm with slight hail"),
   (99, "Thunderstorm with heavy hail")]

/-- Dict lookup with a numeric key: Python hashing identifies numerically
equal keys across `int`, `float` and `bool`, so a key matches iff it is
rationally equal to the stored integer key. -/
def lookupCode (q : ℚ) : Option String :=
  (WEATHERCODE.find? (fun p => (p.1 : ℚ) == q)).map (fun p => p.2)

/-- Decimal digits of the fractional part `q ∈ [0,1)`, with fuel; terminates
exactly for the decimal-exact rationals our embedding feeds it. -/
def fracDigits (q : ℚ) : Nat → String
  | 0 => ""
  | fuel + 1 =>
    if q = 0 then ""
    else
      let d := (q * 10).floor
      toString d ++ fracDigits (q * 10 - (d : ℚ)) fuel

/-- Python `str` of a float: sign, integer part, a dot, and the (possibly
`"0"`) fractional digits — on the decimal-exact rationals of this embedding
this agrees with the shortest round-trip representation Python prints. -/
def floatStr (q : ℚ) : String :=
  let sign := if q < 0 then "-" else ""
  let a := |q|
  let ip := a.floor
  let ds := fracDigits (a - (ip : ℚ)) 1200
  sign ++ toString ip ++ "." ++ (if ds = "" then "0" else ds)

mutual

/-- Python `repr` of a JSON-like value (used by `str` on containers). -/
def pyRepr : JVal → String
  | .null => "None"
  | .bool b => if b then "True" else "False"
  | .int n => toString n
  | .float q => floatStr q
  | .str s => "\x27" ++ s ++ "\x27"
  | .arr xs => "[" ++ String.intercalate ", " (pyReprList xs) ++ "]"
  | .obj fields => "\x7b" ++ String.intercalate ", " (pyReprObj fields) ++ "\x7d"

/-- The `repr`s of the elements of a list. -/
def pyReprList : List JVal → List String
  | [] => []
  | x :: xs => pyRepr x :: pyReprList xs

/-- The `"key: value"` `repr` fragments of a dict. -/
def pyReprObj : List (String × JVal) → List String
  | [] => []
  | (k, v) :: fields => ("\x27" ++ k ++ "\x27: " ++ pyRepr v) :: pyReprObj fields

end

/-- Python `str(x)` as used by f-string interpolation `{x}`. -/
def pyStr : JVal → String
  | .str s => s
  | v => pyRepr v

/-- Round to the nearest integer, ties to even — the rounding used by the
Python fixed-point float formatting (`:.0f`, `:.2f`) on exact values. -/
def rhe (q : ℚ) : ℤ :=
  let f := q.floor
  let r := q - (f : ℚ)
  if r < 1/2 then f
  else if (1 : ℚ)/2 < r then f + 1
  else if f % 2 = 0 then f else f + 1

/-- Python `f"{q:.0f}"` on a number: the sign of the value, then the rounded
magnitude (so `-0.3` renders as `"-0"`, as in Python). -/
def fmtF0 (q : ℚ) : String :=
  if q < 0 then "-" ++ toString (rhe (-q)) else toString (rhe q)

/-- Python `f"{x:.0f}"` on an arbitrary value: numbers format, anything else
raises (`TypeError` / `ValueError`), modelled as `none`. -/
def fmtF0v (v : JVal) : Option String := (asNum v).map fmtF0

/-- Render a nonnegative count of hundredths as `"<int>.<2 digits>"`. -/
def fmt2n (n : ℤ) : String :=
  toString (n / 100) ++ "." ++
    (if n % 100 < 10 then "0" ++ toString (n % 100) else toString (n % 100))

/-- Python `f"{q:.2f}"`: round half-even at two decimals, sign taken from the
value. -/
def fmt2 (q : ℚ) : String :=
  if q < 0 then "-" ++ fmt2n (rhe (-q * 100)) else fmt2n (rhe (q * 100))

/-- Line 126-127 of `news_weather.py`: `return mm / 25.4`. -/
def mm_to_inches (mm : ℚ) : ℚ := mm / 25.4

/-- Lines 147-153 of `news_weather.py`: the three-way precipitation
classification on inches. -/
def popPhrase (precip_in : ℚ) : String :=
  if precip_in ≥ 0.2 then "Precipitation likely"
  else if precip_in ≥ 0.05 then "A chance of light precipitation"
  else "Mostly dry"

/-- Lines 145 of `news_weather.py`:
`WEATHERCODE.get(wcode, f"Weather code {wcode}")`.  Unhashable keys (lists,
dicts) make `dict.get` raise `TypeError`, which escapes the function; every
other value is hashable and either hits a (numeric) table key or falls back
to the f-string. -/
def wcodeDesc : JVal → Option String
  | .arr _ => none
  | .obj _ => none
  | v =>
    some (match asNum v with
      | some q => (lookupCode q).getD ("Weather code " ++ pyStr v)
      | none => "Weather code " ++ pyStr v)

/-- Lines 131-142 of `news_weather.py`: the `try` block.  Extracts, in source
order, `daily`, `times`, `times[1]`, `daily["temperature_2m_max"][1]`,
`daily["temperature_2m_min"][1]`,
`daily.get("precipitation_sum", [0, 0])[1]` and
`daily.get("weathercode", [0, 0])[1]`; any exception gives `none` (the
`except` branch). -/
def tryBlock (w : JVal) : Option (JVal × JVal × JVal × JVal × JVal) := do
  let daily ← jget w "daily"
  let times ← jget daily "time"
  let date ← jindex times 1
  let tmaxs ← jget daily "temperature_2m_max"
  let tmax ← jindex tmaxs 1
  let tmins ← jget daily "temperature_2m_min"
  let tmin ← jindex tmins 1
  let precs ← jgetD daily "precipitation_sum" (.arr [.int 0, .int 0])
  let precip_mm ← jindex precs 1
  let wcs ← jgetD daily "weathercode" (.arr [.int 0, .int 0])
  let wcode ← jindex wcs 1
  pure (date, tmax, tmin, precip_mm, wcode)

/-- The fixed fallback sentence returned by the `except` branch. -/
def fallback : String := "Tomorrow\x27s forecast is unavailable."

/-- Lines 130-155 of `news_weather.py`: `describe_tomorrow`.  The `try` block
feeds the conversion, lookup, classification and format steps; those later
steps run OUTSIDE the `try`, so their exceptions escape (`none`). -/
def describe_tomorrow (w : JVal) : Option String :=
  match tryBlock w with
  | none => some fallback
  | some (date, tmax, tmin, precip_mm, wcode) => do
    let pm ← asNum precip_mm
    let precip_in := mm_to_inches pm
    let wdesc ← wcodeDesc wcode
    let pop_phrase := popPhrase precip_in
    let hi ← fmtF0v tmax
    let lo ← fmtF0v tmin
    pure (pyStr date ++ ": " ++ wdesc ++ ". High " ++ hi ++ "°F, low " ++ lo
      ++ "°F. " ++ pop_phrase ++ " (expected " ++ fmt2 precip_in
      ++ "\" precipitation).")

/-- Substring occurrence: `pat` occurs (contiguously) inside `s`. -/
def occursIn (pat s : String) : Prop :=
  ∃ u v : List Char, u ++ pat.data ++ v = s.data

/-- Canonical well-formed `daily` payload used by concrete witnesses: two
days of data, tomorrow having the given precipitation (mm) and weather
code. -/
def sampleDaily (pm : ℚ) (wc : ℤ) : JVal :=
  .obj [("time", .arr [.str "2026-10-12", .str "2026-10-13"]),
        ("temperature_2m_max", .arr [.float 70, .float (684/10)]),
        ("temperature_2m_min", .arr [.float 50, .float (516/10)]),
        ("precipitation_sum", .arr [.float 0, .float pm]),
        ("weathercode", .arr [.int 3, .int wc])]

/-- Canonical well-formed top-level payload for witnesses. -/
def sampleW (pm : ℚ) (wc : ℤ) : JVal := .obj [("daily", sampleDaily pm wc)]

/-- Input whose `try`-block extraction succeeds but whose
`precipitation_sum` entries are strings: Python then raises an uncaught
`TypeError` in `mm_to_inches` (line 144, outside the `try`). -/
def c1bad : JVal :=
  .obj [("daily", .obj
    [("time", .arr [.str "2026-10-12", .str "2026-10-13"]),
     ("temperature_2m_max", .arr [.float 70, .float 68]),
     ("temperature_2m_min", .arr [.float 50, .float 52]),
     ("precipitation_sum", .arr [.str "0", .str "1"]),
     ("weathercode", .arr [.int 3, .int 61])])]

/-- Input with all five `daily` keys present but every day sequence empty. -/
def emptyDays : JVal :=
  .obj [("daily", .obj
    [("time", .arr []),
     ("temperature_2m_max", .arr []),
     ("temperature_2m_min", .arr []),
     ("precipitation_sum", .arr []),
     ("weathercode", .arr [])])]

/-- A second well-formed input sharing tomorrow (index 1) values with
`sampleW 2 95` but different today values, longer sequences and extra keys. -/
def c7other : JVal :=
  .obj [("latitude", .float 38), ("daily", .obj
    [("time", .arr [.str "1999-01-01", .str "2026-10-13", .str "2026-10-14"]),
     ("temperature_2m_max", .arr [.float 0, .float (684/10), .float 99]),
     ("temperature_2m_min", .arr [.float (-40), .float (516/10), .float 99]),
     ("precipitation_sum", .arr [.float 9, .float 2, .float 9]),
     ("weathercode", .arr [.int 99, .int 95, .int 0]),
     ("sunrise", .arr [.str "06:00", .str "06:01"])]),
    ("current_weather", .obj [("temperature", .float 60)])]

/-- Well-formed input whose tomorrow date string is itself the phrase
"Mostly dry" while tomorrow has heavy precipitation. -/
def c9bad : JVal :=
  .obj [("daily", .obj
    [("time", .arr [.str "2026-10-12", .str "Mostly dry"]),
     ("temperature_2m_max", .arr [.float 70, .float 68]),
     ("temperature_2m_min", .arr [.float 50, .float 52]),
     ("precipitation_sum", .arr [.float 0, .float 6]),
     ("weathercode", .arr [.int 3, .int 61])])]

/-- The output the interpreter produces on `c9bad`. -/
def c9out : String :=
  "Mostly dry: Slight rain. High 68°F, low 52°F. Precipitation likely (expected 0.24\" precipitation)."

/-- Well-formed input whose `daily` dict lacks both the `precipitation_sum`
and the `weathercode` keys. -/
def c10w : JVal :=
  .obj [("daily", .obj
    [("time", .arr [.str "2026-10-12", .str "2026-10-13"]),
     ("temperature_2m_max", .arr [.float 70, .float (684/10)]),
     ("temperature_2m_min", .arr [.float 50, .float (516/10)])])]

/-- Data of a concatenation is the concatenation of the data. -/
lemma str_data_append (a b : String) : (a ++ b).data = a.data ++ b.data := rfl

/-- No formatted summary (which always ends in the precipitation suffix) can
be the fallback sentence. -/
lemma formatted_ne_fallback (a : String) : a ++ "\" precipitation)." ≠ fallback := by
  intro heq
  apply (by decide : ¬ ("\" precipitation).".data <:+ fallback.data))
  refine ⟨a.data, ?_⟩
  rw [← congrArg String.data heq]
  simp [str_data_append]

/-- A key that `d[k]` finds is also what `d.get(k, default)` returns. -/
lemma jgetD_of_jget {d : JVal} {k : String} {v dflt : JVal} (h : jget d k = some v) :
    jgetD d k dflt = some v := by
  cases d <;> simp_all [jget, jgetD]

/-- On a dict without the key, `d.get(k, default)` returns the default. -/
lemma jgetD_of_absent {fields : List (String × JVal)} {k : String} {dflt : JVal}
    (h : fields.lookup k = none) : jgetD (.obj fields) k dflt = some dflt := by
  simp [jgetD, h]

/-- Evaluation of `WEATHERCODE.get(wcode, f"Weather code {wcode}")` at an
integer code. -/
lemma wcodeDesc_int (wc : ℤ) :
    wcodeDesc (.int wc) = some ((lookupCode (wc : ℚ)).getD ("Weather code " ++ toString wc)) := rfl

/-- The `try` block extracts exactly the index-1 elements of the five daily
sequences (with `[0, 0]` defaults for the two optional keys). -/
lemma tryBlock_eq {w daily times tmaxs tmins precs wcs date tmax tmin precip_mm wcode : JVal}
    (hd : jget w "daily" = some daily)
    (ht : jget daily "time" = some times)
    (ht1 : jindex times 1 = some date)
    (hx : jget daily "temperature_2m_max" = some tmaxs)
    (hx1 : jindex tmaxs 1 = some tmax)
    (hn : jget daily "temperature_2m_min" = some tmins)
    (hn1 : jindex tmins 1 = some tmin)
    (hp : jgetD daily "precipitation_sum" (.arr [.int 0, .int 0]) = some precs)
    (hp1 : jindex precs 1 = some precip_mm)
    (hw : jgetD daily "weathercode" (.arr [.int 0, .int 0]) = some wcs)
    (hw1 : jindex wcs 1 = some wcode) :
    tryBlock w = some (date, tmax, tmin, precip_mm, wcode) := by
  simp [tryBlock, hd, ht, ht1, hx, hx1, hn, hn1, hp, hp1, hw, hw1]

/-- When the extracted values are numeric (and the weather code an integer),
the interpreter returns the formatted summary assembled from its parts. -/
lemma describe_tomorrow_of_parts {w : JVal} {date tmaxv tminv pmv : JVal} {tx tn pm : ℚ} {wc : ℤ}
    (h : tryBlock w = some (date, tmaxv, tminv, pmv, .int wc))
    (hx : asNum tmaxv = some tx) (hn : asNum tminv = some tn)
    (hpm : asNum pmv = some pm) :
    describe_tomorrow w = some (pyStr date ++ ": "
      ++ (lookupCode (wc : ℚ)).getD ("Weather code " ++ toString wc)
      ++ ". High " ++ fmtF0 tx ++ "°F, low " ++ fmtF0 tn ++ "°F. "
      ++ popPhrase (mm_to_inches pm)
      ++ " (expected " ++ fmt2 (mm_to_inches pm) ++ "\" precipitation).") := by
  rw [describe_tomorrow, h]
  simp [hpm, hx, hn, wcodeDesc_int, fmtF0v]

/-- The classification of `popPhrase` by the two thresholds, both lower
bounds inclusive. -/
lemma popPhrase_spec (x : ℚ) :
    (popPhrase x = "Precipitation likely" ↔ x ≥ 0.2)
  ∧ (popPhrase x = "A chance of light precipitation" ↔ 0.05 ≤ x ∧ x < 0.2)
  ∧ (popPhrase x = "Mostly dry" ↔ x < 0.05) := by
  unfold popPhrase
  split_ifs with h1 h2
  · exact ⟨⟨fun _ => h1, fun _ => rfl⟩,
      ⟨fun h => absurd h (by decide), fun h => absurd h1 (not_le.mpr h.2)⟩,
      ⟨fun h => absurd h (by decide),
       fun h => absurd h1 (not_le.mpr (lt_trans h (by norm_num)))⟩⟩
  · exact ⟨⟨fun h => absurd h (by decide), fun h => absurd h h1⟩,
      ⟨fun _ => ⟨h2, not_le.mp h1⟩, fun _ => rfl⟩,
      ⟨fun h => absurd h (by decide), fun h => absurd h2 (not_le.mpr h)⟩⟩
  · exact ⟨⟨fun h => absurd h (by decide), fun h => absurd h h1⟩,
      ⟨fun h => absurd h (by decide), fun h => absurd h.1 h2⟩,
      ⟨fun _ => not_le.mp h2, fun _ => rfl⟩⟩

/-- Exhaustiveness: `popPhrase` always returns one of the three phrases. -/
lemma popPhrase_mem (x : ℚ) :
    popPhrase x = "Precipitation likely" ∨ popPhrase x = "A chance of light precipitation"
      ∨ popPhrase x = "Mostly dry" := by
  unfold popPhrase
  split_ifs <;> simp

/-- C1 counterexample: on `c1bad` — a dict whose `precipitation_sum` entries
are strings — `describe_tomorrow` raises an uncaught `TypeError` (modelled
`none`) instead of returning the fallback sentence, refuting both the
never-raises and the malformed-implies-fallback parts of the claim. -/
theorem describe_tomorrow_not_total :
    describe_tomorrow c1bad = none ∧ describe_tomorrow c1bad ≠ some fallback :=
  ⟨rfl, by decide⟩

/-- C1 (corrected): whenever the `try`-block extraction fails (missing
`daily` key, missing `time` key, index 1 out of range as with empty day
sequences, or a non-indexable container), `describe_tomorrow` returns exactly
the fallback sentence and raises nothing; wrong-typed field values that index
successfully can still raise after the `try` block. -/
theorem extraction_failure_yields_fallback (w : JVal) (h : tryBlock w = none) :
    describe_tomorrow w = some fallback := by
  rw [describe_tomorrow, h]

/-- C1 witness: the all-empty-sequences input fails extraction and yields
exactly the fallback sentence. -/
theorem extraction_failure_yields_fallback_witness :
    tryBlock emptyDays = none ∧ describe_tomorrow emptyDays = some fallback :=
  ⟨rfl, extraction_failure_yields_fallback emptyDays rfl⟩

/-- C2 (confirmed): for every well-formed input record the output embeds
`popPhrase (mm_to_inches pm)`, and that phrase is "Precipitation likely" iff
inches ≥ 0.20, "A chance of light precipitation" iff 0.05 ≤ inches < 0.20,
and "Mostly dry" iff inches < 0.05, on the exact converted value with no
prior rounding; `precipitation_mm = 0` gives "Mostly dry". -/
theorem phrase_threshold_classification
    (w daily times tmaxs tmins precs wcs date : JVal) (tx tn pm : ℚ) (wc : ℤ)
    (hd : jget w "daily" = some daily)
    (ht : jget daily "time" = some times)
    (ht1 : jindex times 1 = some date)
    (hx : jget daily "temperature_2m_max" = some tmaxs)
    (hx1 : jindex tmaxs 1 = some (.float tx))
    (hn : jget daily "temperature_2m_min" = some tmins)
    (hn1 : jindex tmins 1 = some (.float tn))
    (hp : jgetD daily "precipitation_sum" (.arr [.int 0, .int 0]) = some precs)
    (hp1 : jindex precs 1 = some (.float pm))
    (hw : jgetD daily "weathercode" (.arr [.int 0, .int 0]) = some wcs)
    (hw1 : jindex wcs 1 = some (.int wc)) :
    describe_tomorrow w = some (pyStr date ++ ": "
      ++ (lookupCode (wc : ℚ)).getD ("Weather code " ++ toString wc)
      ++ ". High " ++ fmtF0 tx ++ "°F, low " ++ fmtF0 tn ++ "°F. "
      ++ popPhrase (mm_to_inches pm)
      ++ " (expected " ++ fmt2 (mm_to_inches pm) ++ "\" precipitation).")
    ∧ (popPhrase (mm_to_inches pm) = "Precipitation likely" ↔ mm_to_inches pm ≥ 0.2)
    ∧ (popPhrase (mm_to_inches pm) = "A chance of light precipitation" ↔
        0.05 ≤ mm_to_inches pm ∧ mm_to_inches pm < 0.2)
    ∧ (popPhrase (mm_to_inches pm) = "Mostly dry" ↔ mm_to_inches pm < 0.05)
    ∧ (pm = 0 → popPhrase (mm_to_inches pm) = "Mostly dry") := by
  refine ⟨describe_tomorrow_of_parts (tryBlock_eq hd ht ht1 hx hx1 hn hn1 hp hp1 hw hw1)
      rfl rfl rfl,
    (popPhrase_spec _).1, (popPhrase_spec _).2.1, (popPhrase_spec _).2.2, ?_⟩
  intro h0
  subst h0
  have hz : mm_to_inches 0 = 0 := by unfold mm_to_inches; norm_num
  rw [hz]
  exact (popPhrase_spec 0).2.2.mpr (by norm_num)

unseal Rat.ofScientific Rat.mul Rat.inv Rat.add Rat.sub in
/-- C2 witness: concrete record with zero precipitation, evaluated. -/
theorem phrase_threshold_classification_witness :
    describe_tomorrow (sampleW 0 61) =
      some "2026-10-13: Slight rain. High 68°F, low 52°F. Mostly dry (expected 0.00\" precipitation)."
    ∧ popPhrase (mm_to_inches 0) = "Mostly dry" := by
  have h := phrase_threshold_classification (sampleW 0 61) (sampleDaily 0 61)
    _ _ _ _ _ _ (684/10) (516/10) 0 61 rfl rfl rfl rfl rfl rfl rfl rfl rfl rfl rfl
  exact ⟨h.1.trans (by rfl), h.2.2.2.2 rfl⟩

unseal Rat.ofScientific Rat.mul Rat.inv Rat.add Rat.sub in
/-- C3 (confirmed): the boundary values classify as claimed —
`5.08 mm` converts to exactly `0.2 in` and yields "Precipitation likely",
`1.27 mm` converts to exactly `0.05 in` and yields "A chance of light
precipitation", and `1.0 mm` (≈ 0.039 in) yields "Mostly dry"; the same
outcomes appear in full outputs on well-formed records (IEEE-754 double
arithmetic agrees with the exact values at these points:
`5.08/25.4 == 0.2` and `1.27/25.4 == 0.05` hold in doubles). -/
theorem boundary_values :
    mm_to_inches 5.08 = 0.2 ∧ popPhrase (mm_to_inches 5.08) = "Precipitation likely"
  ∧ mm_to_inches 1.27 = 0.05 ∧ popPhrase (mm_to_inches 1.27) = "A chance of light precipitation"
  ∧ popPhrase (mm_to_inches 1.0) = "Mostly dry"
  ∧ describe_tomorrow (sampleW 5.08 61) = some "2026-10-13: Slight rain. High 68°F, low 52°F. Precipitation likely (expected 0.20\" precipitation)."
  ∧ describe_tomorrow (sampleW 1.27 61) = some "2026-10-13: Slight rain. High 68°F, low 52°F. A chance of light precipitation (expected 0.05\" precipitation)."
  ∧ describe_tomorrow (sampleW 1.0 61) = some "2026-10-13: Slight rain. High 68°F, low 52°F. Mostly dry (expected 0.04\" precipitation)." := by
  decide

/-- C4 (confirmed): with an integer weather code, if the code is not a key of
`WEATHERCODE` the description slot of the output is exactly
`"Weather code " ++ toString wc` (the numeric code verbatim), and if it is a
key the description is that table entry. -/
theorem unknown_code_fallback_label
    (w daily times tmaxs tmins precs wcs date : JVal) (tx tn pm : ℚ) (wc : ℤ)
    (hd : jget w "daily" = some daily)
    (ht : jget daily "time" = some times)
    (ht1 : jindex times 1 = some date)
    (hx : jget daily "temperature_2m_max" = some tmaxs)
    (hx1 : jindex tmaxs 1 = some (.float tx))
    (hn : jget daily "temperature_2m_min" = some tmins)
    (hn1 : jindex tmins 1 = some (.float tn))
    (hp : jgetD daily "precipitation_sum" (.arr [.int 0, .int 0]) = some precs)
    (hp1 : jindex precs 1 = some (.float pm))
    (hw : jgetD daily "weathercode" (.arr [.int 0, .int 0]) = some wcs)
    (hw1 : jindex wcs 1 = some (.int wc)) :
    (lookupCode (wc : ℚ) = none →
      describe_tomorrow w = some (pyStr date ++ ": " ++ ("Weather code " ++ toString wc)
        ++ ". High " ++ fmtF0 tx ++ "°F, low " ++ fmtF0 tn ++ "°F. "
        ++ popPhrase (mm_to_inches pm)
        ++ " (expected " ++ fmt2 (mm_to_inches pm) ++ "\" precipitation)."))
    ∧ (∀ desc, lookupCode (wc : ℚ) = some desc →
      describe_tomorrow w = some (pyStr date ++ ": " ++ desc
        ++ ". High " ++ fmtF0 tx ++ "°F, low " ++ fmtF0 tn ++ "°F. "
        ++ popPhrase (mm_to_inches pm)
        ++ " (expected " ++ fmt2 (mm_to_inches pm) ++ "\" precipitation).")) := by
  have h := describe_tomorrow_of_parts
    (tryBlock_eq hd ht ht1 hx hx1 hn hn1 hp hp1 hw hw1) rfl rfl rfl
  constructor
  · intro hnone
    simpa [hnone] using h
  · intro desc hdesc
    simpa [hdesc] using h

unseal Rat.ofScientific Rat.mul Rat.inv Rat.add Rat.sub in
/-- C4 witness: the unknown code 12 produces a description containing
"Weather code 12" verbatim. -/
theorem unknown_code_fallback_label_witness :
    describe_tomorrow (sampleW 0 12) =
      some "2026-10-13: Weather code 12. High 68°F, low 52°F. Mostly dry (expected 0.00\" precipitation)."
    ∧ occursIn "Weather code 12"
      "2026-10-13: Weather code 12. High 68°F, low 52°F. Mostly dry (expected 0.00\" precipitation)." := by
  have h := (unknown_code_fallback_label (sampleW 0 12) (sampleDaily 0 12)
    _ _ _ _ _ _ (684/10) (516/10) 0 12 rfl rfl rfl rfl rfl rfl rfl rfl rfl rfl rfl).1 rfl
  refine ⟨h.trans (by rfl), ⟨"2026-10-13: ".data,
    ". High 68°F, low 52°F. Mostly dry (expected 0.00\" precipitation).".data, by decide⟩⟩

/-- C5 (confirmed): `mm_to_inches` is exactly the linear map `mm / 25.4`,
maps `25.4` to exactly `1`, and is monotone. -/
theorem mm_to_inches_exact_monotone :
    (∀ mm : ℚ, mm_to_inches mm = mm / 25.4)
  ∧ mm_to_inches 25.4 = 1
  ∧ (∀ a b : ℚ, a ≤ b → mm_to_inches a ≤ mm_to_inches b) := by
  refine ⟨fun mm => rfl, ?_, fun a b h => ?_⟩
  · unfold mm_to_inches
    norm_num
  · unfold mm_to_inches
    gcongr

/-- C5 witness: monotonicity applied at 3 ≤ 4, plus the exact round-trip. -/
theorem mm_to_inches_exact_monotone_witness :
    mm_to_inches 25.4 = 1 ∧ mm_to_inches 3 ≤ mm_to_inches 4 :=
  ⟨mm_to_inches_exact_monotone.2.1,
   mm_to_inches_exact_monotone.2.2 3 4 (by norm_num)⟩

/-- C6 (confirmed): for every well-formed input record the output is exactly
the date, the weather-code description, the high and low each rounded to the
nearest integer (`fmtF0`), the qualitative phrase, and the converted
precipitation rendered with two decimals (`fmt2`), in the claimed format. -/
theorem output_format
    (w daily times tmaxs tmins precs wcs date : JVal) (tx tn pm : ℚ) (wc : ℤ)
    (hd : jget w "daily" = some daily)
    (ht : jget daily "time" = some times)
    (ht1 : jindex times 1 = some date)
    (hx : jget daily "temperature_2m_max" = some tmaxs)
    (hx1 : jindex tmaxs 1 = some (.float tx))
    (hn : jget daily "temperature_2m_min" = some tmins)
    (hn1 : jindex tmins 1 = some (.float tn))
    (hp : jgetD daily "precipitation_sum" (.arr [.int 0, .int 0]) = some precs)
    (hp1 : jindex precs 1 = some (.float pm))
    (hw : jgetD daily "weathercode" (.arr [.int 0, .int 0]) = some wcs)
    (hw1 : jindex wcs 1 = some (.int wc)) :
    describe_tomorrow w = some (pyStr date ++ ": "
      ++ (lookupCode (wc : ℚ)).getD ("Weather code " ++ toString wc)
      ++ ". High " ++ fmtF0 tx ++ "°F, low " ++ fmtF0 tn ++ "°F. "
      ++ popPhrase (mm_to_inches pm)
      ++ " (expected " ++ fmt2 (mm_to_inches pm) ++ "\" precipitation).") :=
  describe_tomorrow_of_parts
    (tryBlock_eq hd ht ht1 hx hx1 hn hn1 hp hp1 hw hw1) rfl rfl rfl

unseal Rat.ofScientific Rat.mul Rat.inv Rat.add Rat.sub in
/-- C6 witness: a concrete record, fully evaluated. -/
theorem output_format_witness :
    describe_tomorrow (sampleW 2 95) =
      some "2026-10-13: Thunderstorm. High 68°F, low 52°F. A chance of light precipitation (expected 0.08\" precipitation)." := by
  have h := output_format (sampleW 2 95) (sampleDaily 2 95)
    _ _ _ _ _ _ (684/10) (516/10) 2 95 rfl rfl rfl rfl rfl rfl rfl rfl rfl rfl rfl
  exact h.trans (by rfl)

/-- C7 (confirmed): only the index-1 elements of the five `daily` sequences
influence the output — two inputs whose sequences have at least two elements
and agree at index 1 produce identical outputs, whatever their index-0
elements, longer tails, or extra keys. -/
theorem only_index1_matters
    (w w' daily daily' : JVal)
    (ts xs ns ps cs ts' xs' ns' ps' cs' : List JVal)
    (date tmax tmin pm wc : JVal)
    (hd : jget w "daily" = some daily) (hd' : jget w' "daily" = some daily')
    (ht : jget daily "time" = some (.arr ts))
    (ht' : jget daily' "time" = some (.arr ts'))
    (h1 : ts.get? 1 = some date) (h1' : ts'.get? 1 = some date)
    (hx : jget daily "temperature_2m_max" = some (.arr xs))
    (hx' : jget daily' "temperature_2m_max" = some (.arr xs'))
    (h2 : xs.get? 1 = some tmax) (h2' : xs'.get? 1 = some tmax)
    (hn : jget daily "temperature_2m_min" = some (.arr ns))
    (hn' : jget daily' "temperature_2m_min" = some (.arr ns'))
    (h3 : ns.get? 1 = some tmin) (h3' : ns'.get? 1 = some tmin)
    (hp : jget daily "precipitation_sum" = some (.arr ps))
    (hp' : jget daily' "precipitation_sum" = some (.arr ps'))
    (h4 : ps.get? 1 = some pm) (h4' : ps'.get? 1 = some pm)
    (hw : jget daily "weathercode" = some (.arr cs))
    (hw' : jget daily' "weathercode" = some (.arr cs'))
    (h5 : cs.get? 1 = some wc) (h5' : cs'.get? 1 = some wc) :
    describe_tomorrow w = describe_tomorrow w' := by
  have e : tryBlock w = some (date, tmax, tmin, pm, wc) :=
    tryBlock_eq hd ht h1 hx h2 hn h3 (jgetD_of_jget hp) h4 (jgetD_of_jget hw) h5
  have e' : tryBlock w' = some (date, tmax, tmin, pm, wc) :=
    tryBlock_eq hd' ht' h1' hx' h2' hn' h3' (jgetD_of_jget hp') h4' (jgetD_of_jget hw') h5'
  rw [describe_tomorrow, describe_tomorrow, e, e']

/-- C7 witness: two concrete inputs differing everywhere except at index 1
give the same output. -/
theorem only_index1_matters_witness :
    describe_tomorrow (sampleW 2 95) = describe_tomorrow c7other :=
  only_index1_matters (sampleW 2 95) c7other (sampleDaily 2 95) _ _ _ _ _ _ _ _ _ _ _
    (.str "2026-10-13") (.float (684/10)) (.float (516/10)) (.float 2) (.int 95)
    rfl rfl rfl rfl rfl rfl rfl rfl rfl rfl rfl rfl rfl rfl rfl rfl rfl rfl rfl rfl rfl rfl

unseal Rat.ofScientific Rat.mul Rat.inv Rat.add Rat.sub in
/-- C9 counterexample: on `c9bad` the returned non-fallback output contains
two distinct phrases of the three — "Mostly dry" (from the date field) and
"Precipitation likely" (the classification) — so the output does NOT contain
exactly one of the three phrases. -/
theorem two_phrases_in_one_output :
    describe_tomorrow c9bad = some c9out
  ∧ c9out ≠ fallback
  ∧ occursIn "Precipitation likely" c9out
  ∧ occursIn "Mostly dry" c9out
  ∧ "Precipitation likely" ≠ "Mostly dry" := by
  refine ⟨by rfl, by decide,
    ⟨"Mostly dry: Slight rain. High 68°F, low 52°F. ".data,
     " (expected 0.24\" precipitation).".data, by decide⟩,
    ⟨[], ": Slight rain. High 68°F, low 52°F. Precipitation likely (expected 0.24\" precipitation).".data,
     by decide⟩,
    by decide⟩

/-- C9 (corrected): every returned non-fallback output contains at least one
of the three phrases (the classification is exhaustive), the classifier
yields exactly one of the three pairwise distinct phrases, but a phrase can
additionally occur elsewhere in the output (for example inside the date
field), so "exactly one occurrence" fails in general. -/
theorem nonfallback_contains_phrase :
    (∀ (w : JVal) (s : String), describe_tomorrow w = some s → s ≠ fallback →
      occursIn "Precipitation likely" s ∨ occursIn "A chance of light precipitation" s
        ∨ occursIn "Mostly dry" s)
  ∧ (∀ x : ℚ, popPhrase x = "Precipitation likely"
      ∨ popPhrase x = "A chance of light precipitation" ∨ popPhrase x = "Mostly dry")
  ∧ "Precipitation likely" ≠ "A chance of light precipitation"
  ∧ "Precipitation likely" ≠ "Mostly dry"
  ∧ "A chance of light precipitation" ≠ "Mostly dry" := by
  refine ⟨?_, popPhrase_mem, by decide, by decide, by decide⟩
  intro w s h hs
  rw [describe_tomorrow] at h
  cases htb : tryBlock w with
  | none =>
    rw [htb] at h
    simp at h
    exact absurd h.symm hs
  | some t =>
    obtain ⟨d, tmaxv, tminv, pmv, wcv⟩ := t
    rw [htb] at h
    cases hpm : asNum pmv with
    | none => simp [hpm] at h
    | some pmq =>
      cases hwd : wcodeDesc wcv with
      | none => simp [hpm, hwd] at h
      | some wd =>
        cases hhi : fmtF0v tmaxv with
        | none => simp [hpm, hwd, hhi] at h
        | some hi =>
          cases hlo : fmtF0v tminv with
          | none => simp [hpm, hwd, hhi, hlo] at h
          | some lo =>
            simp [hpm, hwd, hhi, hlo] at h
            rcases popPhrase_mem (mm_to_inches pmq) with hph | hph | hph
            · left
              refine ⟨(pyStr d ++ ": " ++ wd ++ ". High " ++ hi ++ "°F, low " ++ lo
                  ++ "°F. ").data,
                (" (expected " ++ fmt2 (mm_to_inches pmq) ++ "\" precipitation).").data, ?_⟩
              rw [← h, ← hph]
              simp [str_data_append, List.append_assoc]
            · right; left
              refine ⟨(pyStr d ++ ": " ++ wd ++ ". High " ++ hi ++ "°F, low " ++ lo
                  ++ "°F. ").data,
                (" (expected " ++ fmt2 (mm_to_inches pmq) ++ "\" precipitation).").data, ?_⟩
              rw [← h, ← hph]
              simp [str_data_append, List.append_assoc]
            · right; right
              refine ⟨(pyStr d ++ ": " ++ wd ++ ". High " ++ hi ++ "°F, low " ++ lo
                  ++ "°F. ").data,
                (" (expected " ++ fmt2 (mm_to_inches pmq) ++ "\" precipitation).").data, ?_⟩
              rw [← h, ← hph]
              simp [str_data_append, List.append_assoc]

unseal Rat.ofScientific Rat.mul Rat.inv Rat.add Rat.sub in
/-- C9 witness: a concrete non-fallback output contains one of the three
phrases. -/
theorem nonfallback_contains_phrase_witness :
    occursIn "Precipitation likely"
      "2026-10-13: Slight rain. High 68°F, low 52°F. Precipitation likely (expected 0.20\" precipitation)."
  ∨ occursIn "A chance of light precipitation"
      "2026-10-13: Slight rain. High 68°F, low 52°F. Precipitation likely (expected 0.20\" precipitation)."
  ∨ occursIn "Mostly dry"
      "2026-10-13: Slight rain. High 68°F, low 52°F. Precipitation likely (expected 0.20\" precipitation)." :=
  nonfallback_contains_phrase.1 (sampleW 5.08 61) _ (by rfl) (by decide)

unseal Rat.ofScientific Rat.mul Rat.inv Rat.add Rat.sub in
/-- C10 (confirmed): when the otherwise well-formed `daily` dict lacks the
`precipitation_sum` key or the `weathercode` key, no fallback is produced:
a missing precipitation defaults to 0 (phrase "Mostly dry", rendered "0.00")
and a missing weather code defaults to 0 (description "Clear sky"), in a
normal formatted summary — stated for each key missing alone and for both
missing together. -/
theorem missing_keys_default :
    (∀ (w times tmaxs tmins precs : JVal) (fields : List (String × JVal))
       (d : String) (tx tn pm : ℚ),
      jget w "daily" = some (.obj fields) →
      jget (.obj fields) "time" = some times → jindex times 1 = some (.str d) →
      jget (.obj fields) "temperature_2m_max" = some tmaxs →
      jindex tmaxs 1 = some (.float tx) →
      jget (.obj fields) "temperature_2m_min" = some tmins →
      jindex tmins 1 = some (.float tn) →
      jget (.obj fields) "precipitation_sum" = some precs →
      jindex precs 1 = some (.float pm) →
      fields.lookup "weathercode" = none →
      describe_tomorrow w = some (d ++ ": " ++ "Clear sky" ++ ". High " ++ fmtF0 tx
        ++ "°F, low " ++ fmtF0 tn ++ "°F. " ++ popPhrase (mm_to_inches pm)
        ++ " (expected " ++ fmt2 (mm_to_inches pm) ++ "\" precipitation).")
      ∧ describe_tomorrow w ≠ some fallback)
  ∧ (∀ (w times tmaxs tmins wcs : JVal) (fields : List (String × JVal))
       (d : String) (tx tn : ℚ) (wc : ℤ),
      jget w "daily" = some (.obj fields) →
      jget (.obj fields) "time" = some times → jindex times 1 = some (.str d) →
      jget (.obj fields) "temperature_2m_max" = some tmaxs →
      jindex tmaxs 1 = some (.float tx) →
      jget (.obj fields) "temperature_2m_min" = some tmins →
      jindex tmins 1 = some (.float tn) →
      fields.lookup "precipitation_sum" = none →
      jget (.obj fields) "weathercode" = some wcs →
      jindex wcs 1 = some (.int wc) →
      describe_tomorrow w = some (d ++ ": "
        ++ (lookupCode (wc : ℚ)).getD ("Weather code " ++ toString wc)
        ++ ". High " ++ fmtF0 tx ++ "°F, low " ++ fmtF0 tn ++ "°F. " ++ "Mostly dry"
        ++ " (expected " ++ "0.00" ++ "\" precipitation).")
      ∧ describe_tomorrow w ≠ some fallback)
  ∧ (∀ (w times tmaxs tmins : JVal) (fields : List (String × JVal))
       (d : String) (tx tn : ℚ),
      jget w "daily" = some (.obj fields) →
      jget (.obj fields) "time" = some times → jindex times 1 = some (.str d) →
      jget (.obj fields) "temperature_2m_max" = some tmaxs →
      jindex tmaxs 1 = some (.float tx) →
      jget (.obj fields) "temperature_2m_min" = some tmins →
      jindex tmins 1 = some (.float tn) →
      fields.lookup "precipitation_sum" = none →
      fields.lookup "weathercode" = none →
      describe_tomorrow w = some (d ++ ": " ++ "Clear sky" ++ ". High " ++ fmtF0 tx
        ++ "°F, low " ++ fmtF0 tn ++ "°F. " ++ "Mostly dry"
        ++ " (expected " ++ "0.00" ++ "\" precipitation).")
      ∧ describe_tomorrow w ≠ some fallback) := by
  refine ⟨?_, ?_, ?_⟩
  · intro w times tmaxs tmins precs fields d tx tn pm hd ht ht1 hx hx1 hn hn1 hp hp1 hw
    have e : tryBlock w = some (.str d, .float tx, .float tn, .float pm, .int 0) :=
      tryBlock_eq hd ht ht1 hx hx1 hn hn1 (jgetD_of_jget hp) hp1 (jgetD_of_absent hw) rfl
    have h := describe_tomorrow_of_parts e rfl rfl rfl
    have e1 : (lookupCode ((0 : ℤ) : ℚ)).getD ("Weather code " ++ toString (0 : ℤ))
        = "Clear sky" := rfl
    rw [e1] at h
    have hmain : describe_tomorrow w = some (d ++ ": " ++ "Clear sky" ++ ". High "
        ++ fmtF0 tx ++ "°F, low " ++ fmtF0 tn ++ "°F. " ++ popPhrase (mm_to_inches pm)
        ++ " (expected " ++ fmt2 (mm_to_inches pm) ++ "\" precipitation).") := by
      rw [h]
      rfl
    refine ⟨hmain, ?_⟩
    rw [hmain]
    intro heq
    exact formatted_ne_fallback _ (Option.some_inj.mp heq)
  · intro w times tmaxs tmins wcs fields d tx tn wc hd ht ht1 hx hx1 hn hn1 hp hw hw1
    have e : tryBlock w = some (.str d, .float tx, .float tn, .int 0, .int wc) :=
      tryBlock_eq hd ht ht1 hx hx1 hn hn1 (jgetD_of_absent hp) rfl (jgetD_of_jget hw) hw1
    have h := describe_tomorrow_of_parts e rfl rfl rfl
    have e2 : popPhrase (mm_to_inches ((0 : ℤ) : ℚ)) = "Mostly dry" := rfl
    have e3 : fmt2 (mm_to_inches ((0 : ℤ) : ℚ)) = "0.00" := rfl
    rw [e2, e3] at h
    have hmain : describe_tomorrow w = some (d ++ ": "
        ++ (lookupCode (wc : ℚ)).getD ("Weather code " ++ toString wc)
        ++ ". High " ++ fmtF0 tx ++ "°F, low " ++ fmtF0 tn ++ "°F. " ++ "Mostly dry"
        ++ " (expected " ++ "0.00" ++ "\" precipitation).") := by
      rw [h]
      rfl
    refine ⟨hmain, ?_⟩
    rw [hmain]
    intro heq
    exact formatted_ne_fallback _ (Option.some_inj.mp heq)
  · intro w times tmaxs tmins fields d tx tn hd ht ht1 hx hx1 hn hn1 hp hw
    have e : tryBlock w = some (.str d, .float tx, .float tn, .int 0, .int 0) :=
      tryBlock_eq hd ht ht1 hx hx1 hn hn1 (jgetD_of_absent hp) rfl (jgetD_of_absent hw) rfl
    have h := describe_tomorrow_of_parts e rfl rfl rfl
    have e1 : (lookupCode ((0 : ℤ) : ℚ)).getD ("Weather code " ++ toString (0 : ℤ))
        = "Clear sky" := rfl
    have e2 : popPhrase (mm_to_inches ((0 : ℤ) : ℚ)) = "Mostly dry" := rfl
    have e3 : fmt2 (mm_to_inches ((0 : ℤ) : ℚ)) = "0.00" := rfl
    rw [e1, e2, e3] at h
    have hmain : describe_tomorrow w = some (d ++ ": " ++ "Clear sky" ++ ". High "
        ++ fmtF0 tx ++ "°F, low " ++ fmtF0 tn ++ "°F. " ++ "Mostly dry"
        ++ " (expected " ++ "0.00" ++ "\" precipitation).") := by
      rw [h]
      rfl
    refine ⟨hmain, ?_⟩
    rw [hmain]
    intro heq
    exact formatted_ne_fallback _ (Option.some_inj.mp heq)

unseal Rat.ofScientific Rat.mul Rat.inv Rat.add Rat.sub in
/-- C10 witness: the concrete input lacking both optional keys, fully
evaluated. -/
theorem missing_keys_default_witness :
    describe_tomorrow c10w =
      some "2026-10-13: Clear sky. High 68°F, low 52°F. Mostly dry (expected 0.00\" precipitation)."
    ∧ describe_tomorrow c10w ≠ some fallback := by
  have h := missing_keys_default.2.2 c10w _ _ _ _ "2026-10-13" (684/10) (516/10)
    rfl rfl rfl rfl rfl rfl rfl rfl rfl
  exact ⟨h.1.trans (by rfl), h.2⟩
